import Mathlib

/-!
Shallow embedding of the conversation-orchestration backend
(`src/backend/main.py` and `src/backend/app/llm_service.py`):
the context assembler `get_qwen_response`, the chat/message handlers
`create_chat`, `send_message`, `delete_chats_bulk`, and the audio handlers
`transcribe_audio` / `speak_text`.  The relational store is modelled as
explicit lists of rows; each HTTP handler is a function from the store and
the request to the new store and a result (`Except (status, detail) α`).
Remote provider calls are modelled by their observable outcome, passed in
as data.
-/

namespace AIRoles

/-- A role-tagged turn submitted to the chat-completion endpoint
(an element of the `messages` list built in `get_qwen_response`). -/
structure Turn where
  role : String
  content : String
deriving DecidableEq, Repr

/-- A history entry as handed to `get_qwen_response`: the
`{"sender_type": ..., "content": ...}` dict built in `send_message`. -/
structure HistMsg where
  sender_type : String
  content : String
deriving DecidableEq, Repr

/-- A few-shot example dict; the Python dict may or may not contain the
keys `"user"` and `"ai"`, modelled as `Option` fields. -/
structure FewShotExample where
  user : Option String
  ai : Option String
deriving DecidableEq, Repr

/-- The turns contributed by one few-shot example
(`llm_service.py` lines 55-59): one user turn if the `"user"` key is
present, then one assistant turn if the `"ai"` key is present. -/
def exampleTurns (e : FewShotExample) : List Turn :=
  (match e.user with
   | some u => [⟨"user", u⟩]
   | none => []) ++
  (match e.ai with
   | some a => [⟨"assistant", a⟩]
   | none => [])

/-- The turn contributed by one history message
(`llm_service.py` lines 62-65): sender kind `"user"` maps to role
`"user"`, any other sender kind maps to `"assistant"`. -/
def historyTurn (m : HistMsg) : Turn :=
  ⟨if m.sender_type = "user" then "user" else "assistant", m.content⟩

/-- The `messages` list assembled by `get_qwen_response`
(`llm_service.py` lines 48-68): system turn, few-shot example turns,
history turns, then the final user turn.  An absent
`few_shot_examples` argument (Python `None`, falsy like the empty
list) is modelled as the empty list. -/
def buildMessages (system_prompt : String) (chat_history : List HistMsg)
    (user_message : String) (few_shot_examples : List FewShotExample) :
    List Turn :=
  [⟨"system", system_prompt⟩]
    ++ (few_shot_examples.map exampleTurns).flatten
    ++ chat_history.map historyTurn
    ++ [⟨"user", user_message⟩]

/-- The fixed fallback string returned by `get_qwen_response` when the
chat-completion call raises (`llm_service.py` line 80). -/
def fallbackResponse : String := "Sorry, I am unable to respond at the moment."

/-- The body of `get_qwen_response` (`llm_service.py` lines 39-80).
The remote chat-completion call is modelled by `infer`, mapping the
assembled turn list to either the first completion's text (`Except.ok`)
or a raised exception (`Except.error`); on an exception the fixed
fallback string is returned. -/
def get_qwen_response (system_prompt : String) (chat_history : List HistMsg)
    (user_message : String) (few_shot_examples : List FewShotExample)
    (infer : List Turn → Except String String) : String :=
  match infer (buildMessages system_prompt chat_history user_message few_shot_examples) with
  | .ok text => text
  | .error _ => fallbackResponse

/-! ### The turn list as the specification words it (for the refinement claim)

The spec (§4.1) prescribes: one system turn; for each few-shot example a
user turn followed, if present, by an assistant turn, an example missing
one side contributing only the side present; one turn per history
message with sender kind `user` mapped to role `user` and `ai` mapped to
`assistant`; one final user turn.  These definitions follow the spec's
words, to be compared with `buildMessages` above, which follows the code. -/

/-- Turns of one few-shot example as the spec words it: the user turn
followed by (if present) the assistant turn; a missing side contributes
nothing. -/
def specExampleTurns (e : FewShotExample) : List Turn :=
  match e.user, e.ai with
  | some u, some a => [⟨"user", u⟩, ⟨"assistant", a⟩]
  | some u, none => [⟨"user", u⟩]
  | none, some a => [⟨"assistant", a⟩]
  | none, none => []

/-- The history-message mapping as the spec words it: sender kind
`user` maps to role `user` and sender kind `ai` maps to role
`assistant` (the spec's data model admits no other sender kind; any
other kind is left unmapped here). -/
def specHistoryTurn (m : HistMsg) : Turn :=
  if m.sender_type = "user" then ⟨"user", m.content⟩
  else if m.sender_type = "ai" then ⟨"assistant", m.content⟩
  else ⟨m.sender_type, m.content⟩

/-- The full turn list as the spec words it: system turn, example
turns, history turns, final user turn. -/
def specAssembleTurns (system_prompt : String) (examples : List FewShotExample)
    (history : List HistMsg) (new_message : String) : List Turn :=
  [⟨"system", system_prompt⟩]
    ++ (examples.map specExampleTurns).flatten
    ++ history.map specHistoryTurn
    ++ [⟨"user", new_message⟩]

/-! ### Data model and chat handlers (`main.py`)

Rows carry only the fields the handlers read or write; ids are `Nat`
(the source uses UUIDs, whose only relevant property is identity). -/

/-- A persisted message row (`models.Message`): parent chat, sender kind
(`"user"` or `"ai"`), text content, and position index `order_in_chat`. -/
structure Message where
  chat_id : Nat
  sender_type : String
  content : String
  order_in_chat : Nat
deriving DecidableEq, Repr

/-- A persisted chat row (`models.Chat`): owning user, persona role, title. -/
structure Chat where
  id : Nat
  user_id : Nat
  role_id : Nat
  title : String
deriving DecidableEq, Repr

/-- A persisted role row (`models.Role`): the fields the chat handlers
read. -/
structure Role where
  id : Nat
  name : String
  system_prompt : String
  few_shot_examples : List FewShotExample
  is_active : Bool
deriving DecidableEq, Repr

/-- The relational store: lists of rows in insertion order, plus the
next fresh chat id (standing in for UUID generation). -/
structure DB where
  roles : List Role
  chats : List Chat
  messages : List Message
  nextChatId : Nat
deriving DecidableEq, Repr

/-- The messages with a given parent chat id, in insertion order. -/
def msgsOf (msgs : List Message) (chatId : Nat) : List Message :=
  msgs.filter (fun m => m.chat_id == chatId)

/-- The messages of one chat, in insertion order
(`db.query(Message).filter(Message.chat_id == chat_id)`). -/
def chatMessages (db : DB) (chatId : Nat) : List Message :=
  msgsOf db.messages chatId

/-- An HTTP error: status code and detail string. -/
def HTTPError := Nat × String

/-- The sequence of observable (committed) store states produced by
`create_chat` (`main.py` lines 163-189), in commit order.  A missing or
inactive role raises 404 before any write (empty list).  Otherwise the
chat row is committed first (state one), and the synthetic position-0
`ai` greeting is committed second (state two); the Python falsy test
`chat_create.title if chat_create.title else ...` makes both a missing
title and an empty-string title fall back to the default. -/
def create_chat_states (db : DB) (uid rid : Nat) (title : Option String) :
    List DB :=
  match db.roles.find? (fun r => r.id == rid && r.is_active) with
  | none => []
  | some role =>
    let t : String :=
      match title with
      | some s => if s = "" then "Chat with " ++ role.name else s
      | none => "Chat with " ++ role.name
    let c : Chat := ⟨db.nextChatId, uid, rid, t⟩
    let db1 : DB := ⟨db.roles, db.chats ++ [c], db.messages, db.nextChatId + 1⟩
    let greeting : Message :=
      ⟨c.id, "ai", "Hello, I am " ++ role.name ++ ". How can I help you today?", 0⟩
    let db2 : DB := ⟨db1.roles, db1.chats, db1.messages ++ [greeting], db1.nextChatId⟩
    [db1, db2]

/-- The `create_chat` handler (`main.py` lines 163-189): final store
state and HTTP result.  The final state is the last committed state of
`create_chat_states`; on a missing or inactive role the store is
unchanged and 404 is raised. -/
def create_chat (db : DB) (uid rid : Nat) (title : Option String) :
    DB × Except HTTPError Chat :=
  match db.roles.find? (fun r => r.id == rid && r.is_active) with
  | none => (db, .error (404, "Role not found or inactive"))
  | some role =>
    let t : String :=
      match title with
      | some s => if s = "" then "Chat with " ++ role.name else s
      | none => "Chat with " ++ role.name
    let c : Chat := ⟨db.nextChatId, uid, rid, t⟩
    let greeting : Message :=
      ⟨c.id, "ai", "Hello, I am " ++ role.name ++ ". How can I help you today?", 0⟩
    (⟨db.roles, db.chats ++ [c], db.messages ++ [greeting], db.nextChatId + 1⟩, .ok c)

/-- The user-message row persisted by `send_message` at the current
message count (`main.py` lines 214-219). -/
def userMessageRow (chatId n : Nat) (content : String) : Message :=
  ⟨chatId, "user", content, n⟩

/-- The chat history handed to the LLM by `send_message`
(`main.py` lines 231-236): the chat's messages ordered by
`order_in_chat`, projected to sender kind and content. -/
def send_message_llm_history (db : DB) (chatId : Nat) : List HistMsg :=
  ((chatMessages db chatId).mergeSort
      (fun a b => a.order_in_chat ≤ b.order_in_chat)).map
    (fun m => ⟨m.sender_type, m.content⟩)

/-- The `send_message` handler (`main.py` lines 205-258): final store
state and HTTP result.  Ownership is checked first (404, no write);
the user message is committed at index `count`; then the chat's role is
loaded (500 if absent, with the user message already committed); the
LLM reply — real or fallback, via `get_qwen_response` — is committed as
an `ai` message at index `count + 1`. -/
def send_message (db : DB) (uid chatId : Nat) (content : String)
    (infer : List Turn → Except String String) :
    DB × Except HTTPError Message :=
  match db.chats.find? (fun c => c.id == chatId && c.user_id == uid) with
  | none => (db, .error (404, "Chat not found or unauthorized"))
  | some chat =>
    let n : Nat := (chatMessages db chatId).length
    let db1 : DB :=
      ⟨db.roles, db.chats, db.messages ++ [userMessageRow chatId n content], db.nextChatId⟩
    match db.roles.find? (fun r => r.id == chat.role_id) with
    | none => (db1, .error (500, "Associated role not found"))
    | some role =>
      let ai_content : String :=
        get_qwen_response role.system_prompt (send_message_llm_history db1 chatId)
          content role.few_shot_examples infer
      let aiMsg : Message := ⟨chatId, "ai", ai_content, n + 1⟩
      (⟨db1.roles, db1.chats, db1.messages ++ [aiMsg], db1.nextChatId⟩, .ok aiMsg)

/-- The `delete_chats_bulk` handler (`main.py` lines 260-279).  The
query keeps only requested chats owned by the caller.  If that subset
is empty the code raises `HTTPException(404, ...)` — but it does so
inside the `try` block, and `fastapi.HTTPException` is an `Exception`,
so the blanket `except Exception` clause catches it and re-raises it as
a 500 whose detail embeds the stringified 404.  Otherwise each selected
chat is deleted, cascading to its messages (the cascade lives in the
ORM relationship declared in `app/models.py`, which is not part of the
two provided source files; it is modelled from the spec: a chat's
deletion "cascades its messages"). -/
def delete_chats_bulk (db : DB) (uid : Nat) (chat_ids : List Nat) :
    DB × Except HTTPError Unit :=
  let toDelete := db.chats.filter
    (fun c => chat_ids.contains c.id && c.user_id == uid)
  if toDelete.isEmpty then
    (db, .error (500,
      "Internal server error during bulk deletion: 404: No chats found for deletion or unauthorized"))
  else
    (⟨db.roles,
      db.chats.filter (fun c => !(chat_ids.contains c.id && c.user_id == uid)),
      db.messages.filter (fun m => !(toDelete.any (fun c => c.id == m.chat_id))),
      db.nextChatId⟩, .ok ())

/-! ### Audio handlers (`main.py` lines 283-313, `llm_service.py` lines 82-202) -/

/-- The observable outcome of the TTS HTTP POST in `get_tts_audio`:
a raised network/transport exception, a non-2xx status (on which
`raise_for_status` throws), or a 2xx JSON body whose `"data"` field is
absent (`none`) or holds a string. -/
inductive TTSResponse where
  | networkError (msg : String)
  | httpError (code : Nat) (text : String)
  | ok (data : Option String)
deriving DecidableEq, Repr

/-- The body of `get_tts_audio` (`llm_service.py` lines 142-179).  The
library call `base64.b64decode` is an external primitive, modelled by
the `b64decode` argument (`Except.error` standing for the exception it
raises on invalid input).  A transport error, a non-2xx status, a
missing or empty (falsy) `"data"` field, and a decode failure all land
in an `except` clause returning the zero-length byte string; on success
the decoded bytes are returned. -/
def get_tts_audio (b64decode : String → Except String (List UInt8))
    (resp : TTSResponse) : List UInt8 :=
  match resp with
  | .networkError _ => []
  | .httpError _ _ => []
  | .ok data =>
    match data with
    | none => []
    | some s =>
      if s = "" then []
      else
        match b64decode s with
        | .ok bytes => bytes
        | .error _ => []

/-- The `speak_text` handler (`main.py` lines 306-313): synthesize audio
for the text; if the resulting byte string is empty (falsy), raise 500;
otherwise stream the bytes back. -/
def speak_text (b64decode : String → Except String (List UInt8))
    (resp : TTSResponse) : Except HTTPError (List UInt8) :=
  let audio_content := get_tts_audio b64decode resp
  if audio_content = [] then .error (500, "Failed to generate audio")
  else .ok audio_content

/-- An external call made by the transcription path: an object-store
upload of the audio bytes under a filename, or the POST to the remote
ASR endpoint with a public URL. -/
inductive AudioEffect where
  | kodoUpload (content : List UInt8) (filename : String)
  | asrCall (url : String)
deriving DecidableEq, Repr

/-- The observable outcome of the ASR HTTP POST in `get_asr_transcript`:
a raised network/transport exception, a non-2xx status, or a 2xx JSON
body whose nested `data.text` field is absent (`none`) or a string. -/
inductive ASRResponse where
  | networkError (msg : String)
  | httpError (code : Nat) (text : String)
  | ok (text : Option String)
deriving DecidableEq, Repr

/-- The body of `get_asr_transcript` on the `BytesIO` branch
(`llm_service.py` lines 82-140), together with the list of external
calls it performs.  The upload outcome (`upload_audio_to_qiniu_kodo`
returns a public URL or `None`) and the ASR outcome are passed in as
data.  A failed upload returns the empty string without contacting the
ASR endpoint; a transport error, a non-2xx status, and a missing or
empty (falsy) transcript all return the empty string. -/
def get_asr_transcript (filename : String) (content : List UInt8)
    (uploadResult : Option String) (asrResp : ASRResponse) :
    String × List AudioEffect :=
  match uploadResult with
  | none => ("", [.kodoUpload content filename])
  | some publicUrl =>
    let effects : List AudioEffect := [.kodoUpload content filename, .asrCall publicUrl]
    match asrResp with
    | .networkError _ => ("", effects)
    | .httpError _ _ => ("", effects)
    | .ok none => ("", effects)
    | .ok (some t) => (if t = "" then "" else t, effects)

/-- The Python test `file.content_type.startswith("audio/")`, expressed
on the character sequence (`String.startsWith` agrees but its byte-level
implementation does not reduce inside the kernel). -/
def contentTypeIsAudio (content_type : String) : Bool :=
  "audio/".data.isPrefixOf content_type.data

/-- The `transcribe_audio` handler (`main.py` lines 283-304), with the
list of external calls performed.  A content type not starting with
`"audio/"` raises 400 before the file is read, uploaded, or sent to the
ASR endpoint; otherwise the file bytes are wrapped and handed to
`get_asr_transcript` and the transcript is returned. -/
def transcribe_audio (content_type filename : String) (content : List UInt8)
    (uploadResult : Option String) (asrResp : ASRResponse) :
    Except HTTPError String × List AudioEffect :=
  if !contentTypeIsAudio content_type then
    (.error (400, "Only audio files are allowed"), [])
  else
    let r := get_asr_transcript filename content uploadResult asrResp
    (.ok r.1, r.2)

/-! ### Reachable store states

The store starts with an arbitrary role catalog (seeded at startup by
`create_default_roles` and extended only by `create_role`, which
touches neither chats nor messages) and no chats or messages, and
evolves by completed `create_chat` and `send_message` operations. -/

/-- The store states reachable through completed `create_chat` and
`send_message` operations from an initial state with no chats and no
messages. -/
inductive Reachable : DB → Prop where
  | init (roles : List Role) : Reachable ⟨roles, [], [], 0⟩
  | createChat {db : DB} (uid rid : Nat) (title : Option String) :
      Reachable db → Reachable (create_chat db uid rid title).1
  | sendMessage {db : DB} (uid chatId : Nat) (content : String)
      (infer : List Turn → Except String String) :
      Reachable db → Reachable (send_message db uid chatId content infer).1

/-! ### The position-index invariant -/

/-- The store invariant maintained by the chat handlers: chat ids are
below the allocation counter and pairwise distinct, message parent ids
are below the counter, each chat's messages carry the position indices
`0..count-1` in store order, and each chat's first message is an `ai`
message. -/
structure Inv (db : DB) : Prop where
  chat_id_lt : ∀ c ∈ db.chats, c.id < db.nextChatId
  msg_chat_lt : ∀ m ∈ db.messages, m.chat_id < db.nextChatId
  chat_ids_nodup : (db.chats.map Chat.id).Nodup
  ordered : ∀ c ∈ db.chats,
    (msgsOf db.messages c.id).map Message.order_in_chat =
      List.range (msgsOf db.messages c.id).length
  first_ai : ∀ c ∈ db.chats,
    ∃ m ms, msgsOf db.messages c.id = m :: ms ∧ m.sender_type = "ai"

/-! ### Concrete stores used to exercise the theorems -/

/-- A sample active persona. -/
def roleEx : Role :=
  ⟨5, "Spider-Man", "You are Spider-Man.", [⟨some "u1", some "a1"⟩], true⟩

/-- The initial store: the seeded role catalog, no chats, no messages. -/
def dbEx0 : DB := ⟨[roleEx], [], [], 0⟩

/-- The store after user 1 creates a chat with role 5. -/
def dbEx1 : DB := (create_chat dbEx0 1 5 none).1

/-- The store after user 1 additionally sends one message on chat 0. -/
def dbEx2 : DB :=
  (send_message dbEx1 1 0 "bye" (fun _ => Except.ok "hey")).1

/-- The intermediate committed state of `create_chat` on `dbEx0`: the
chat row is persisted, the greeting is not yet. -/
def dbMid : DB := ⟨[roleEx], [⟨0, 1, 5, "Chat with Spider-Man"⟩], [], 1⟩

/-- A store with chat 0 owned by user 1 and chat 1 owned by user 2,
each with its greeting message. -/
def dbC4 : DB :=
  ⟨[roleEx],
   [⟨0, 1, 5, "A"⟩, ⟨1, 2, 5, "B"⟩],
   [⟨0, "ai", "hiA", 0⟩, ⟨1, "ai", "hiB", 0⟩],
   2⟩

/-- Splitting `msgsOf` over an append of stores. -/
theorem msgsOf_append (l₁ l₂ : List Message) (i : Nat) :
    msgsOf (l₁ ++ l₂) i = msgsOf l₁ i ++ msgsOf l₂ i := by
  simp [msgsOf, List.filter_append]

/-- Messages none of which belong to the chat contribute nothing. -/
theorem msgsOf_eq_nil (l : List Message) (i : Nat)
    (h : ∀ m ∈ l, m.chat_id ≠ i) : msgsOf l i = [] := by
  simp only [msgsOf, List.filter_eq_nil_iff]
  intro m hm
  simpa using h m hm

/-- Messages all of which belong to the chat are kept unchanged. -/
theorem msgsOf_eq_self (l : List Message) (i : Nat)
    (h : ∀ m ∈ l, m.chat_id = i) : msgsOf l i = l := by
  rw [msgsOf, List.filter_eq_self]
  intro m hm
  simpa using h m hm

/-- Appending, to an invariant store, messages that all belong to one
existing chat and continue its position sequence preserves the
invariant. -/
theorem Inv.append_msgs {db : DB} (inv : Inv db) {chatId : Nat}
    {tail : List Message} (c₀ : Chat) (hc₀ : c₀ ∈ db.chats)
    (hc₀id : c₀.id = chatId) (hcid : ∀ m ∈ tail, m.chat_id = chatId)
    (hord : (msgsOf db.messages chatId).map Message.order_in_chat
        ++ tail.map Message.order_in_chat =
      List.range ((msgsOf db.messages chatId).length + tail.length)) :
    Inv ⟨db.roles, db.chats, db.messages ++ tail, db.nextChatId⟩ := by
  obtain ⟨lt₁, lt₂, nd, ord, fai⟩ := inv
  refine ⟨lt₁, ?_, nd, ?_, ?_⟩
  · intro m hm
    rcases List.mem_append.1 hm with hm | hm
    · exact lt₂ m hm
    · rw [hcid m hm, ← hc₀id]
      exact lt₁ c₀ hc₀
  · intro c hc
    by_cases hci : c.id = chatId
    · rw [hci, msgsOf_append, msgsOf_eq_self tail chatId hcid, List.map_append,
        List.length_append]
      exact hord
    · rw [msgsOf_append,
        msgsOf_eq_nil tail c.id (fun m hm => by rw [hcid m hm]; exact fun h => hci h.symm),
        List.append_nil]
      exact ord c hc
  · intro c hc
    by_cases hci : c.id = chatId
    · obtain ⟨m, ms, hms, hsender⟩ := fai c hc
      exact ⟨m, ms ++ tail, by rw [msgsOf_append, hms,
        msgsOf_eq_self tail c.id (fun m hm => (hcid m hm).trans hci.symm),
        List.cons_append], hsender⟩
    · obtain ⟨m, ms, hms, hsender⟩ := fai c hc
      exact ⟨m, ms, by rw [msgsOf_append,
        msgsOf_eq_nil tail c.id (fun m hm => by rw [hcid m hm]; exact fun h => hci h.symm),
        List.append_nil, hms], hsender⟩

/-- Appending a fresh chat together with its position-0 `ai` greeting
preserves the invariant. -/
theorem Inv.create_step {db : DB} (inv : Inv db) (c : Chat) (g : Message)
    (hcid : c.id = db.nextChatId) (hgid : g.chat_id = db.nextChatId)
    (hgord : g.order_in_chat = 0) (hgai : g.sender_type = "ai") :
    Inv ⟨db.roles, db.chats ++ [c], db.messages ++ [g], db.nextChatId + 1⟩ := by
  obtain ⟨lt₁, lt₂, nd, ord, fai⟩ := inv
  have hgfresh : ∀ c' ∈ db.chats, ∀ m ∈ [g], m.chat_id ≠ c'.id := by
    intro c' hc' m hm
    simp only [List.mem_singleton] at hm
    subst hm
    rw [hgid]
    intro h
    have := lt₁ c' hc'
    omega
  have hmfresh : ∀ m ∈ db.messages, m.chat_id ≠ c.id := by
    intro m hm
    rw [hcid]
    have := lt₂ m hm
    omega
  have hgc : ∀ m ∈ [g], m.chat_id = c.id := by
    intro m hm
    simp only [List.mem_singleton] at hm
    subst hm
    rw [hgid, hcid]
  refine ⟨?_, ?_, ?_, ?_, ?_⟩
  · intro c' hc'
    rcases List.mem_append.1 hc' with h | h
    · exact Nat.lt_succ_of_lt (lt₁ c' h)
    · simp only [List.mem_singleton] at h
      subst h
      rw [hcid]
      exact Nat.lt_succ_self _
  · intro m hm
    rcases List.mem_append.1 hm with h | h
    · exact Nat.lt_succ_of_lt (lt₂ m h)
    · simp only [List.mem_singleton] at h
      subst h
      rw [hgid]
      exact Nat.lt_succ_self _
  · rw [List.map_append]
    refine nd.append (by simp) ?_
    intro a ha hb
    simp only [List.map_cons, List.map_nil, List.mem_singleton] at hb
    simp only [List.mem_map] at ha
    obtain ⟨c', hc', hc'a⟩ := ha
    have := lt₁ c' hc'
    rw [hc'a, hb, hcid] at this
    omega
  · intro c' hc'
    rcases List.mem_append.1 hc' with h | h
    · rw [msgsOf_append, msgsOf_eq_nil [g] c'.id (hgfresh c' h), List.append_nil]
      exact ord c' h
    · simp only [List.mem_singleton] at h
      subst h
      rw [msgsOf_append, msgsOf_eq_nil db.messages c'.id hmfresh, List.nil_append,
        msgsOf_eq_self [g] c'.id hgc]
      simp [hgord, List.range_succ]
  · intro c' hc'
    rcases List.mem_append.1 hc' with h | h
    · obtain ⟨m, ms, hms, hsender⟩ := fai c' h
      refine ⟨m, ms, ?_, hsender⟩
      rw [msgsOf_append, msgsOf_eq_nil [g] c'.id (hgfresh c' h), List.append_nil]
      exact hms
    · simp only [List.mem_singleton] at h
      subst h
      refine ⟨g, [], ?_, hgai⟩
      rw [msgsOf_append, msgsOf_eq_nil db.messages c'.id hmfresh, List.nil_append,
        msgsOf_eq_self [g] c'.id hgc]

/-- Every reachable store state satisfies the invariant. -/
theorem reachable_inv {db : DB} (h : Reachable db) : Inv db := by
  induction h with
  | init roles =>
    exact ⟨by simp, by simp, by simp, by simp, by simp⟩
  | createChat uid rid title hR ih =>
    rename_i db
    cases hfind : db.roles.find? (fun r => r.id == rid && r.is_active) with
    | none => simpa [create_chat, hfind] using ih
    | some role =>
      simp only [create_chat, hfind]
      exact ih.create_step _ _ rfl rfl rfl rfl
  | sendMessage uid chatId content infer hR ih =>
    rename_i db
    cases hfind : db.chats.find? (fun c => c.id == chatId && c.user_id == uid) with
    | none => simpa [send_message, hfind] using ih
    | some chat =>
      have hmem : chat ∈ db.chats := List.mem_of_find?_eq_some hfind
      have hp := List.find?_some hfind
      simp only [Bool.and_eq_true, beq_iff_eq] at hp
      have h1 := ih.ordered chat hmem
      rw [hp.1] at h1
      cases hrole : db.roles.find? (fun r => r.id == chat.role_id) with
      | none =>
        simp only [send_message, hfind, hrole, chatMessages]
        exact ih.append_msgs chat hmem hp.1 (by simp [userMessageRow])
          (by simp only [userMessageRow, List.map_cons, List.map_nil, List.length_cons,
                List.length_nil, List.range_succ]
              rw [h1])
      | some role =>
        simp only [send_message, hfind, hrole, chatMessages, List.append_assoc,
          List.singleton_append]
        exact ih.append_msgs chat hmem hp.1 (by simp [userMessageRow])
          (by simp only [userMessageRow, List.map_cons, List.map_nil, List.length_cons,
                List.length_nil, List.range_succ]
              rw [h1]
              simp [List.append_assoc])

/-! ### Claim theorems -/

/-- The code's per-example turns agree with the spec's wording for
every example. -/
theorem exampleTurns_eq_spec (e : FewShotExample) :
    exampleTurns e = specExampleTurns e := by
  cases hu : e.user <;> cases ha : e.ai <;>
    simp [exampleTurns, specExampleTurns, hu, ha]

/-- The code's history mapping agrees with the spec's wording on the
sender kinds the data model admits. -/
theorem historyTurn_eq_spec {m : HistMsg}
    (h : m.sender_type = "user" ∨ m.sender_type = "ai") :
    historyTurn m = specHistoryTurn m := by
  rcases h with h | h <;> simp [historyTurn, specHistoryTurn, h]

/-- C1: for every system prompt, few-shot example list, chat history
whose sender kinds are the data model's `user`/`ai`, and new user
message, `get_qwen_response` assembles exactly the turn list the spec
prescribes: one system turn, then per example a user turn followed (if
present) by an assistant turn, then one turn per history message with
`user` mapped to `user` and `ai` to `assistant`, then one final user
turn — and no other turns. -/
theorem c1_assembly_matches_spec (S u_msg : String)
    (examples : List FewShotExample) (history : List HistMsg)
    (h : ∀ m ∈ history, m.sender_type = "user" ∨ m.sender_type = "ai") :
    buildMessages S history u_msg examples =
      specAssembleTurns S examples history u_msg := by
  simp only [buildMessages, specAssembleTurns]
  have he : examples.map exampleTurns = examples.map specExampleTurns :=
    List.map_congr_left (fun e _ => exampleTurns_eq_spec e)
  have hh : history.map historyTurn = history.map specHistoryTurn :=
    List.map_congr_left (fun m hm => historyTurn_eq_spec (h m hm))
  rw [he, hh]

/-- Witness for C1, on the spec's own example: system prompt `S`,
examples `[(u1, a1)]`, history `[(user, hi), (ai, hey)]`, new message
`bye`. -/
theorem c1_assembly_matches_spec_witness :
    (∀ m ∈ [(⟨"user", "hi"⟩ : HistMsg), ⟨"ai", "hey"⟩],
      m.sender_type = "user" ∨ m.sender_type = "ai") ∧
    buildMessages "S" [⟨"user", "hi"⟩, ⟨"ai", "hey"⟩] "bye"
        [⟨some "u1", some "a1"⟩] =
      specAssembleTurns "S" [⟨some "u1", some "a1"⟩]
        [⟨"user", "hi"⟩, ⟨"ai", "hey"⟩] "bye" :=
  ⟨by decide, c1_assembly_matches_spec "S" "bye" [⟨some "u1", some "a1"⟩]
    [⟨"user", "hi"⟩, ⟨"ai", "hey"⟩] (by decide)⟩

/-- C7: a few-shot example with only a `user` side contributes exactly
one user turn — never an empty assistant turn — and an example with
only an `ai` side contributes exactly one assistant turn. -/
theorem c7_one_sided_example_single_turn (u a : String) :
    exampleTurns ⟨some u, none⟩ = [⟨"user", u⟩] ∧
    exampleTurns ⟨none, some a⟩ = [⟨"assistant", a⟩] :=
  ⟨rfl, rfl⟩

/-- C2: in every store reachable by create-chat and send-message
operations, each chat's messages carry the position indices
`0..count-1` exactly and in order, and the message at position 0 has
sender kind `ai`. -/
theorem c2_position_indices_gapless {db : DB} (h : Reachable db) :
    ∀ c ∈ db.chats,
      (chatMessages db c.id).map Message.order_in_chat =
        List.range (chatMessages db c.id).length ∧
      ∃ m ms, chatMessages db c.id = m :: ms ∧ m.order_in_chat = 0 ∧
        m.sender_type = "ai" := by
  obtain ⟨_, _, _, ord, fai⟩ := reachable_inv h
  intro c hc
  refine ⟨ord c hc, ?_⟩
  obtain ⟨m, ms, hms, hai⟩ := fai c hc
  refine ⟨m, ms, hms, ?_, hai⟩
  have h0 := ord c hc
  rw [hms] at h0
  rw [List.length_cons, List.range_succ_eq_map, List.map_cons] at h0
  exact (List.cons.injEq _ _ _ _ ▸ h0).1

/-- Witness for C2: the property evaluated at chat 0 of the store
reached by one create-chat and one send-message operation. -/
theorem c2_position_indices_gapless_witness :
    (chatMessages dbEx2 0).map Message.order_in_chat =
      List.range (chatMessages dbEx2 0).length ∧
    ∃ m ms, chatMessages dbEx2 0 = m :: ms ∧ m.order_in_chat = 0 ∧
      m.sender_type = "ai" :=
  c2_position_indices_gapless
    (Reachable.sendMessage 1 0 "bye" (fun _ => Except.ok "hey")
      (Reachable.createChat 1 5 none (Reachable.init [roleEx])))
    ⟨0, 1, 5, "Chat with Spider-Man"⟩ (by decide)

/-- Counterexample to C3 as stated: `create_chat` commits the chat row
and the greeting in two separate commits, so the first committed state
(`dbMid`) is an observable state in which the chat is persisted with
zero messages. -/
theorem c3_counterexample_chat_committed_without_greeting :
    dbMid ∈ create_chat_states dbEx0 1 5 none ∧
    dbMid.chats ≠ [] ∧ dbMid.messages = [] := by
  refine ⟨?_, by decide, rfl⟩
  simp [create_chat_states, dbEx0, dbMid, roleEx, List.find?]

/-- C3 (amended): once the `create_chat` handler completes for an
active role, the returned chat is persisted together with a message at
position 0, sender kind `ai`, whose content contains the role's name;
but between the handler's two commits there is an observable state
holding the chat with zero messages. -/
theorem c3_amended_create_chat_final_greeting (db : DB) (uid rid : Nat)
    (title : Option String) (role : Role)
    (h : db.roles.find? (fun r => r.id == rid && r.is_active) = some role) :
    ∃ c : Chat, (create_chat db uid rid title).2 = .ok c ∧
      c ∈ (create_chat db uid rid title).1.chats ∧
      ∃ m ∈ (create_chat db uid rid title).1.messages,
        m.chat_id = c.id ∧ m.order_in_chat = 0 ∧ m.sender_type = "ai" ∧
        ∃ pre post, m.content = pre ++ role.name ++ post := by
  simp only [create_chat, h]
  refine ⟨_, rfl, by simp, ?_⟩
  exact ⟨⟨db.nextChatId, "ai",
    "Hello, I am " ++ role.name ++ ". How can I help you today?", 0⟩,
    by simp, rfl, rfl, rfl,
    "Hello, I am ", ". How can I help you today?", rfl⟩

/-- Witness for the amended C3, on the sample store. -/
theorem c3_amended_create_chat_final_greeting_witness :
    dbEx0.roles.find? (fun r => r.id == 5 && r.is_active) = some roleEx ∧
    (∃ c : Chat, (create_chat dbEx0 1 5 none).2 = .ok c ∧
      c ∈ (create_chat dbEx0 1 5 none).1.chats ∧
      ∃ m ∈ (create_chat dbEx0 1 5 none).1.messages,
        m.chat_id = c.id ∧ m.order_in_chat = 0 ∧ m.sender_type = "ai" ∧
        ∃ pre post, m.content = pre ++ roleEx.name ++ post) :=
  ⟨rfl, c3_amended_create_chat_final_greeting dbEx0 1 5 none roleEx rfl⟩

/-- C4, evaluated at the failing input: on `dbC4` (chat 0 owned by
user 1, chat 1 owned by user 2, each with its messages), user 1's bulk
delete of `[0, 1]` deletes only chat 0 and its messages — chat 1 and
its messages remain — but user 1's bulk delete of `[1]`, whose owned
subset is empty, leaves the store unchanged and fails with status 500,
not the claimed 404: the handler's own `HTTPException(404, ...)` is
raised inside its `try` block and swallowed by the blanket
`except Exception`, which re-raises it as a 500. -/
theorem c4_bulk_delete_evaluation :
    delete_chats_bulk dbC4 1 [0, 1] =
      (⟨[roleEx], [⟨1, 2, 5, "B"⟩], [⟨1, "ai", "hiB", 0⟩], 2⟩,
       Except.ok ()) ∧
    delete_chats_bulk dbC4 1 [1] =
      (dbC4, Except.error (500,
        "Internal server error during bulk deletion: 404: No chats found for deletion or unauthorized")) := by
  constructor <;> rfl

/-- C5: if the chat and its role are found and the inference call on
the assembled turn list raises, `send_message` still succeeds: it
returns (and persists) an `ai` message whose content is the fixed
fallback string, at position `count + 1`, directly after the user
message persisted at `count` — no index is skipped. -/
theorem c5_inference_failure_fallback_persisted (db : DB)
    (uid chatId : Nat) (content err : String) (chat : Chat) (role : Role)
    (infer : List Turn → Except String String)
    (hc : db.chats.find? (fun c => c.id == chatId && c.user_id == uid) = some chat)
    (hr : db.roles.find? (fun r => r.id == chat.role_id) = some role)
    (hi : infer (buildMessages role.system_prompt
        (send_message_llm_history
          ⟨db.roles, db.chats,
           db.messages ++ [userMessageRow chatId (chatMessages db chatId).length content],
           db.nextChatId⟩ chatId)
        content role.few_shot_examples) = Except.error err) :
    send_message db uid chatId content infer =
      (⟨db.roles, db.chats,
        db.messages ++ [userMessageRow chatId (chatMessages db chatId).length content]
          ++ [⟨chatId, "ai", fallbackResponse, (chatMessages db chatId).length + 1⟩],
        db.nextChatId⟩,
       Except.ok ⟨chatId, "ai", fallbackResponse, (chatMessages db chatId).length + 1⟩) := by
  simp only [send_message, get_qwen_response, hc, hr, hi]

/-- Witness for C5: on `dbEx1`, a send-message whose inference call
raises persists the fallback reply at position 2 after the user
message at position 1. -/
theorem c5_inference_failure_fallback_persisted_witness :
    (fun _ => Except.error "boom" : List Turn → Except String String)
        (buildMessages roleEx.system_prompt
          (send_message_llm_history
            ⟨dbEx1.roles, dbEx1.chats,
             dbEx1.messages ++ [userMessageRow 0 (chatMessages dbEx1 0).length "bye"],
             dbEx1.nextChatId⟩ 0)
          "bye" roleEx.few_shot_examples) = Except.error "boom" ∧
    send_message dbEx1 1 0 "bye" (fun _ => Except.error "boom") =
      (⟨dbEx1.roles, dbEx1.chats,
        dbEx1.messages ++ [userMessageRow 0 (chatMessages dbEx1 0).length "bye"]
          ++ [⟨0, "ai", fallbackResponse, (chatMessages dbEx1 0).length + 1⟩],
        dbEx1.nextChatId⟩,
       Except.ok ⟨0, "ai", fallbackResponse, (chatMessages dbEx1 0).length + 1⟩) :=
  ⟨rfl, c5_inference_failure_fallback_persisted dbEx1 1 0 "bye" "boom"
    ⟨0, 1, 5, "Chat with Spider-Man"⟩ roleEx (fun _ => Except.error "boom")
    rfl rfl rfl⟩

/-- C6: a send-message whose chat id does not exist or is not owned by
the caller fails with 404 and leaves the whole store — in particular
the message store — unchanged. -/
theorem c6_send_message_not_found_no_write (db : DB) (uid chatId : Nat)
    (content : String) (infer : List Turn → Except String String)
    (h : db.chats.find? (fun c => c.id == chatId && c.user_id == uid) = none) :
    send_message db uid chatId content infer =
      (db, Except.error (404, "Chat not found or unauthorized")) := by
  simp only [send_message, h]

/-- Witness for C6: user 2 sending to user 1's chat 0 on `dbEx1`. -/
theorem c6_send_message_not_found_no_write_witness :
    dbEx1.chats.find? (fun c => c.id == 0 && c.user_id == 2) = none ∧
    send_message dbEx1 2 0 "hi" (fun _ => Except.ok "yo") =
      (dbEx1, Except.error (404, "Chat not found or unauthorized")) :=
  ⟨rfl, c6_send_message_not_found_no_write dbEx1 2 0 "hi"
    (fun _ => Except.ok "yo") rfl⟩

/-- C8: every failure of the synthesis call — network error, non-2xx
status, missing `data` field (and likewise an empty one) — makes
`get_tts_audio` return zero-length bytes, upon which `speak_text`
fails with 500 rather than returning an empty success; on success the
decoded base64 bytes are returned. -/
theorem c8_tts_failure_empty_and_speak_500
    (b64decode : String → Except String (List UInt8))
    (msg text s : String) (code : Nat) (bytes : List UInt8)
    (hdec : b64decode s = Except.ok bytes) (hs : s ≠ "") :
    get_tts_audio b64decode (.networkError msg) = [] ∧
    speak_text b64decode (.networkError msg) =
      Except.error (500, "Failed to generate audio") ∧
    get_tts_audio b64decode (.httpError code text) = [] ∧
    speak_text b64decode (.httpError code text) =
      Except.error (500, "Failed to generate audio") ∧
    get_tts_audio b64decode (.ok none) = [] ∧
    speak_text b64decode (.ok none) =
      Except.error (500, "Failed to generate audio") ∧
    get_tts_audio b64decode (.ok (some s)) = bytes := by
  refine ⟨rfl, rfl, rfl, rfl, rfl, rfl, ?_⟩
  simp [get_tts_audio, hs, hdec]

/-- Witness for C8, with a concrete decoder succeeding on `"AQI="`. -/
theorem c8_tts_failure_empty_and_speak_500_witness :
    (fun _ => Except.ok [1, 2] : String → Except String (List UInt8)) "AQI=" =
      Except.ok [1, 2] ∧ ("AQI=" : String) ≠ "" ∧
    (get_tts_audio (fun _ => Except.ok [1, 2]) (.networkError "down") = [] ∧
     speak_text (fun _ => Except.ok [1, 2]) (.networkError "down") =
       Except.error (500, "Failed to generate audio") ∧
     get_tts_audio (fun _ => Except.ok [1, 2]) (.httpError 503 "busy") = [] ∧
     speak_text (fun _ => Except.ok [1, 2]) (.httpError 503 "busy") =
       Except.error (500, "Failed to generate audio") ∧
     get_tts_audio (fun _ => Except.ok [1, 2]) (.ok none) = [] ∧
     speak_text (fun _ => Except.ok [1, 2]) (.ok none) =
       Except.error (500, "Failed to generate audio") ∧
     get_tts_audio (fun _ => Except.ok [1, 2]) (.ok (some "AQI=")) = [1, 2]) :=
  ⟨rfl, by decide,
    c8_tts_failure_empty_and_speak_500 (fun _ => Except.ok [1, 2])
      "down" "busy" "AQI=" 503 [1, 2] rfl (by decide)⟩

/-- C10: a transcription request whose content type does not start
with `audio/` fails with 400 and performs no external call: no
object-store upload and no ASR call. -/
theorem c10_non_audio_rejected_before_effects (content_type filename : String)
    (content : List UInt8) (uploadResult : Option String)
    (asrResp : ASRResponse)
    (h : contentTypeIsAudio content_type = false) :
    transcribe_audio content_type filename content uploadResult asrResp =
      (Except.error (400, "Only audio files are allowed"), []) := by
  simp [transcribe_audio, h]

/-- Witness for C10: a `text/plain` upload. -/
theorem c10_non_audio_rejected_before_effects_witness :
    contentTypeIsAudio "text/plain" = false ∧
    transcribe_audio "text/plain" "a.txt" [104, 105] (some "https://cdn/a.txt")
        (.ok (some "hi")) =
      (Except.error (400, "Only audio files are allowed"), []) :=
  ⟨by decide, c10_non_audio_rejected_before_effects "text/plain" "a.txt"
    [104, 105] (some "https://cdn/a.txt") (.ok (some "hi")) (by decide)⟩

/-- A message list whose position indices are `0..count-1` in store
order is already sorted, so the handler's order-by is the identity. -/
theorem mergeSort_eq_self_of_positions (l : List Message)
    (h : l.map Message.order_in_chat = List.range l.length) :
    l.mergeSort (fun a b => a.order_in_chat ≤ b.order_in_chat) = l := by
  apply List.mergeSort_of_sorted
  have hp : (l.map Message.order_in_chat).Pairwise (· < ·) := by
    rw [h]
    exact List.sorted_lt_range _
  rw [List.pairwise_map] at hp
  exact hp.imp (fun hab => by simpa using Nat.le_of_lt hab)

/-- C9: on an owned chat of a reachable store, the history that
`send_message` hands to the context assembler is read only after the
new user message is persisted at index `count`, so that history already
ends with the new user message; the assembler then appends the same
text once more as the final user turn, so the turn list submitted to
the model ends with two user turns both carrying the new text. -/
theorem c9_user_message_duplicated_in_turns {db : DB} (h : Reachable db)
    (uid chatId : Nat) (content : String) (chat : Chat)
    (hc : db.chats.find? (fun c => c.id == chatId && c.user_id == uid) = some chat) :
    (send_message_llm_history
        ⟨db.roles, db.chats,
         db.messages ++ [userMessageRow chatId (chatMessages db chatId).length content],
         db.nextChatId⟩ chatId).getLast? = some ⟨"user", content⟩ ∧
    ∀ (S : String) (examples : List FewShotExample),
      ∃ front,
        buildMessages S
            (send_message_llm_history
              ⟨db.roles, db.chats,
               db.messages ++ [userMessageRow chatId (chatMessages db chatId).length content],
               db.nextChatId⟩ chatId)
            content examples =
          front ++ [⟨"user", content⟩, ⟨"user", content⟩] := by
  have hmem := List.mem_of_find?_eq_some hc
  have hp := List.find?_some hc
  simp only [Bool.and_eq_true, beq_iff_eq] at hp
  have hord := (reachable_inv h).ordered chat hmem
  rw [hp.1] at hord
  have hfilter :
      msgsOf (db.messages ++ [userMessageRow chatId (msgsOf db.messages chatId).length content])
          chatId =
        msgsOf db.messages chatId
          ++ [userMessageRow chatId (msgsOf db.messages chatId).length content] := by
    rw [msgsOf_append,
      msgsOf_eq_self [userMessageRow chatId (msgsOf db.messages chatId).length content] chatId
        (by intro m hm; simp only [List.mem_singleton] at hm; subst hm; rfl)]
  have hordered :
      (msgsOf db.messages chatId
          ++ [userMessageRow chatId (msgsOf db.messages chatId).length content]).map
            Message.order_in_chat =
        List.range (msgsOf db.messages chatId
          ++ [userMessageRow chatId (msgsOf db.messages chatId).length content]).length := by
    rw [List.map_append, List.length_append]
    simp only [userMessageRow, List.map_cons, List.map_nil, List.length_cons,
      List.length_nil, List.range_succ]
    rw [hord]
  have hhist :
      send_message_llm_history
          ⟨db.roles, db.chats,
           db.messages ++ [userMessageRow chatId (chatMessages db chatId).length content],
           db.nextChatId⟩ chatId =
        (msgsOf db.messages chatId).map
            (fun m => (⟨m.sender_type, m.content⟩ : HistMsg))
          ++ [⟨"user", content⟩] := by
    simp only [send_message_llm_history, chatMessages]
    rw [hfilter, mergeSort_eq_self_of_positions _ hordered, List.map_append]
    rfl
  constructor
  · rw [hhist]
    exact List.getLast?_concat _
  · intro S examples
    rw [hhist]
    refine ⟨[⟨"system", S⟩] ++ (examples.map exampleTurns).flatten
      ++ ((msgsOf db.messages chatId).map
          (fun m => (⟨m.sender_type, m.content⟩ : HistMsg))).map historyTurn, ?_⟩
    simp [buildMessages, historyTurn, List.append_assoc]

/-- Witness for C9, on `dbEx1` with user 1 sending `bye` to chat 0. -/
theorem c9_user_message_duplicated_in_turns_witness :
    (send_message_llm_history
        ⟨dbEx1.roles, dbEx1.chats,
         dbEx1.messages ++ [userMessageRow 0 (chatMessages dbEx1 0).length "bye"],
         dbEx1.nextChatId⟩ 0).getLast? = some ⟨"user", "bye"⟩ ∧
    ∃ front,
      buildMessages "S"
          (send_message_llm_history
            ⟨dbEx1.roles, dbEx1.chats,
             dbEx1.messages ++ [userMessageRow 0 (chatMessages dbEx1 0).length "bye"],
             dbEx1.nextChatId⟩ 0)
          "bye" [] =
        front ++ [⟨"user", "bye"⟩, ⟨"user", "bye"⟩] :=
  ⟨(c9_user_message_duplicated_in_turns
      (Reachable.createChat 1 5 none (Reachable.init [roleEx]))
      1 0 "bye" ⟨0, 1, 5, "Chat with Spider-Man"⟩ rfl).1,
   (c9_user_message_duplicated_in_turns
      (Reachable.createChat 1 5 none (Reachable.init [roleEx]))
      1 0 "bye" ⟨0, 1, 5, "Chat with Spider-Man"⟩ rfl).2 "S" []⟩

end AIRoles
